import Mathlib

/-!
Verification of the language-detection and prompt-construction core of the
`ai-code-explainer` application (`src/app.py`).

Strings are modelled as `List Char`. Python's `pattern in text` membership
test is modelled by the executable `containsB`; `str.lower` by the ASCII
`pyToLower` (the patterns and markers in the source are all ASCII);
`str.strip()` by `pyStrip` over CPython's whitespace set for `str`.

The Pygments `guess_lexer` call is an external library dependency, so
`detect_language` is parameterized by an abstract guesser returning the
lexer's name and alias list, or `none` when the library raises
`ClassNotFound`.
-/

abbrev Str := List Char

/-- Python `str.lower` restricted to ASCII (all patterns compared in the
source are ASCII). -/
def pyToLower (c : Char) : Char := c.toLower

def lowerS (s : Str) : Str := s.map pyToLower

/-- CPython's whitespace predicate for `str` (used by `str.strip()` and
truthiness of `code.strip()`). -/
def pySpace (c : Char) : Bool :=
  (0x9 ≤ c.toNat && c.toNat ≤ 0xd) ||
  (0x1c ≤ c.toNat && c.toNat ≤ 0x1f) ||
  c.toNat == 0x20 || c.toNat == 0x85 || c.toNat == 0xa0 ||
  c.toNat == 0x1680 ||
  (0x2000 ≤ c.toNat && c.toNat ≤ 0x200a) ||
  c.toNat == 0x2028 || c.toNat == 0x2029 || c.toNat == 0x202f ||
  c.toNat == 0x205f || c.toNat == 0x3000

/-- Python `str.strip()` with no argument. -/
def pyStrip (s : Str) : Str :=
  ((s.dropWhile pySpace).reverse.dropWhile pySpace).reverse

/-- Prefix test on character lists. -/
def isPrefixOfL : Str → Str → Bool
  | [], _ => true
  | _ :: _, [] => false
  | a :: as, b :: bs => a == b && isPrefixOfL as bs

/-- Python's `p in s` substring membership test. -/
def containsB (p : Str) : Str → Bool
  | [] => isPrefixOfL p []
  | b :: bs => isPrefixOfL p (b :: bs) || containsB p bs

/-- `sum(1 for pattern in patterns if pattern in text)` from
`analyze_code_content`. -/
def countMatches (patterns : List Str) (text : Str) : Nat :=
  patterns.countP (fun p => containsB p text)

/- The seven per-language pattern lists of `analyze_code_content`
(src/app.py lines 310-358), verbatim. -/

def js_patterns : List Str :=
  [("function(").data, ("const ").data, ("let ").data, ("var ").data,
   ("=>").data, ("console.log").data, ("document.").data, ("window.").data,
   ("$(").data, ("jquery").data, ("react").data, ("angular").data,
   ("npm").data, ("node").data, ("express").data, ("async/await").data,
   (".then(").data, (".catch(").data, ("export ").data, ("import ").data,
   ("require(").data]

def python_patterns : List Str :=
  [("def ").data, ("import ").data, ("from ").data, ("print(").data,
   ("if __name__").data, ("class ").data, ("self.").data, ("elif ").data,
   ("__init__").data, ("lambda ").data, ("range(").data, ("len(").data,
   ("str(").data, ("int(").data, ("float(").data, ("list(").data,
   ("dict(").data, ("tuple(").data, ("set(").data]

def java_patterns : List Str :=
  [("public class").data, ("private ").data, ("public ").data,
   ("static void main").data, ("system.out.println").data,
   ("string[]").data, ("arraylist").data, ("hashmap").data,
   ("public static").data, ("extends ").data, ("implements ").data,
   ("interface ").data]

def cpp_patterns : List Str :=
  [("#include").data, ("std::").data, ("cout").data, ("cin").data,
   ("namespace ").data, ("using namespace").data, ("int main()").data,
   ("class ").data, ("template<").data, ("#define").data,
   ("#ifndef").data, ("#ifdef").data, ("vector<").data, ("string ").data]

def html_patterns : List Str :=
  [("<!doctype").data, ("<html").data, ("<head>").data, ("<body>").data,
   ("<div").data, ("<span").data, ("<p>").data, ("<a href").data,
   ("<img").data, ("<script").data, ("<style").data, ("<link").data]

def css_patterns : List Str :=
  [("\x7b").data, ("\x7d").data, ("color:").data, ("background:").data,
   ("font-").data, ("margin:").data, ("padding:").data, ("border:").data,
   ("width:").data, ("height:").data, ("@media").data, ("display:").data,
   ("position:").data, ("flex").data, ("grid").data]

def php_patterns : List Str :=
  [("<?php").data, ("$_").data, ("echo ").data, ("function ").data,
   ("class ").data, ("public function").data, ("private function").data,
   ("protected function").data, ("$this->").data, ("array(").data,
   ("mysqli").data, ("pdo").data, ("include ").data, ("require ").data]

/-- The `pattern_counts` dict of `analyze_code_content`, as an ordered
association list in Python insertion order (src/app.py lines 361-369). -/
def langPatternTable : List (Str × List Str) :=
  [(("javascript").data, js_patterns),
   (("python").data, python_patterns),
   (("java").data, java_patterns),
   (("cpp").data, cpp_patterns),
   (("html").data, html_patterns),
   (("css").data, css_patterns),
   (("php").data, php_patterns)]

def pattern_counts (text : Str) : List (Str × Nat) :=
  langPatternTable.map (fun lp => (lp.1, countMatches lp.2 text))

/-- `analyze_code_content` (src/app.py lines 306-378): lowercase and strip
the code, count pattern matches per language, and return the first language
(in the dict's insertion order) whose count equals the maximum, provided
the maximum is at least 2; otherwise `None`. -/
def analyze_code_content (code : Str) : Option Str :=
  let code_lower := pyStrip (lowerS code)
  let counts := pattern_counts code_lower
  let max_count : Nat := (counts.map (fun lc => lc.2)).foldl max 0
  if 2 ≤ max_count then
    (counts.find? (fun lc => lc.2 == max_count)).map (fun lc => lc.1)
  else
    none

/-- The filename extension table of `detect_language` (src/app.py lines
166-189). -/
def ext_map : List (Str × Str) :=
  [(("py").data, ("python").data),
   (("js").data, ("javascript").data),
   (("jsx").data, ("javascript").data),
   (("ts").data, ("javascript").data),
   (("tsx").data, ("javascript").data),
   (("cpp").data, ("cpp").data),
   (("cxx").data, ("cpp").data),
   (("cc").data, ("cpp").data),
   (("c").data, ("cpp").data),
   (("h").data, ("cpp").data),
   (("hpp").data, ("cpp").data),
   (("java").data, ("java").data),
   (("html").data, ("html").data),
   (("htm").data, ("html").data),
   (("css").data, ("css").data),
   (("scss").data, ("css").data),
   (("sass").data, ("css").data),
   (("less").data, ("css").data),
   (("php").data, ("php").data),
   (("php3").data, ("php").data),
   (("php4").data, ("php").data),
   (("php5").data, ("php").data)]

/-- `filename.lower().split('.')[-1] if '.' in filename else ''`
(src/app.py line 165): the text after the last dot of the lowercased
filename, or the empty string when the filename has no dot. -/
def file_ext (filename : Str) : Str :=
  let f := lowerS filename
  if f.contains '.' then (f.reverse.takeWhile (fun c => c != '.')).reverse
  else []

/-- The filename-based step of `detect_language` (src/app.py lines
164-192): runs only when a filename is supplied and truthy (non-empty), and
returns the extension table entry when the extension is a key. -/
def detect_from_filename : Option Str → Option Str
  | none => none
  | some f => if f = [] then none else ext_map.lookup (file_ext f)

/-- The `language_map` dict of `detect_language` (src/app.py lines
199-267), as an ordered association list in Python insertion order. -/
def language_map : List (Str × Str) :=
  [(("python").data, ("python").data),
   (("python3").data, ("python").data),
   (("py").data, ("python").data),
   (("py3").data, ("python").data),
   (("sage").data, ("python").data),
   (("python3traceback").data, ("python").data),
   (("pytb").data, ("python").data),
   (("py3tb").data, ("python").data),
   (("javascript").data, ("javascript").data),
   (("js").data, ("javascript").data),
   (("jsx").data, ("javascript").data),
   (("node").data, ("javascript").data),
   (("javascript+genshi").data, ("javascript").data),
   (("js+genshi").data, ("javascript").data),
   (("genshi").data, ("javascript").data),
   (("c++").data, ("cpp").data),
   (("cpp").data, ("cpp").data),
   (("cxx").data, ("cpp").data),
   (("cc").data, ("cpp").data),
   (("c").data, ("cpp").data),
   (("arduino").data, ("cpp").data),
   (("cuda").data, ("cpp").data),
   (("java").data, ("java").data),
   (("html").data, ("html").data),
   (("htm").data, ("html").data),
   (("html+genshi").data, ("html").data),
   (("html+kid").data, ("html").data),
   (("html+smarty").data, ("html").data),
   (("html+velocity").data, ("html").data),
   (("rhtml").data, ("html").data),
   (("html+django").data, ("html").data),
   (("html+jinja").data, ("html").data),
   (("htmldjango").data, ("html").data),
   (("css").data, ("css").data),
   (("scss").data, ("css").data),
   (("sass").data, ("css").data),
   (("less").data, ("css").data),
   (("stylus").data, ("css").data),
   (("css+genshi").data, ("css").data),
   (("css+django").data, ("css").data),
   (("css+jinja").data, ("css").data),
   (("php").data, ("php").data),
   (("php3").data, ("php").data),
   (("php4").data, ("php").data),
   (("php5").data, ("php").data),
   (("html+php").data, ("php").data),
   (("sql").data, ("python").data),
   (("mysql").data, ("python").data),
   (("postgresql").data, ("python").data),
   (("sqlite3").data, ("python").data),
   (("plpgsql").data, ("python").data),
   (("tsql").data, ("python").data)]

/-- Result of the external Pygments `guess_lexer` call: the lexer's display
name and its alias list. -/
structure LexerInfo where
  name : Str
  aliases : List Str

/-- First `language_map` entry whose key is a substring of the lowercased
lexer name (src/app.py lines 270-276). -/
def lang_from_lexer_name (lexer_name : Str) : Option Str :=
  (language_map.find? (fun kv => containsB kv.1 (lowerS lexer_name))).map
    (fun kv => kv.2)

/-- First alias whose lowercase form is an exact `language_map` key
(src/app.py lines 279-284). -/
def lang_from_aliases (aliases : List Str) : Option Str :=
  aliases.findSome? (fun a => language_map.lookup (lowerS a))

/-- The content-scan-then-default tail of `detect_language`, shared by the
no-lexer-match path (src/app.py lines 286-294) and the `ClassNotFound`
handler (lines 296-304): content pattern scan, then the `python`
default. -/
def detect_fallback (code : Str) : Str :=
  match analyze_code_content code with
  | some lang => lang
  | none => ("python").data

/-- The lexer-mapping steps of `detect_language` once the guesser has
returned a lexer (src/app.py lines 269-294): name-containment lookup, then
alias lookup, then the fallback. -/
def detect_from_lexer (lexer : LexerInfo) (code : Str) : Str :=
  match lang_from_lexer_name lexer.name with
  | some lang => lang
  | none =>
    match lang_from_aliases lexer.aliases with
    | some lang => lang
    | none => detect_fallback code

/-- `detect_language` (src/app.py lines 160-304), parameterized by the
external Pygments guesser (`none` models a `ClassNotFound` exception):
filename extension table, then lexer-name containment lookup, then alias
lookup, then content pattern scan, then the `python` default. -/
def detect_language (guess_lexer : Str → Option LexerInfo) (code : Str)
    (filename : Option Str) : Str :=
  match detect_from_filename filename with
  | some lang => lang
  | none =>
    match guess_lexer code with
    | some lexer => detect_from_lexer lexer code
    | none => detect_fallback code

/-- `MAX_CODE_LENGTH` (src/app.py line 136). -/
def MAX_CODE_LENGTH : Nat := 50000

/-- `validate_code_input` (src/app.py lines 380-394), returning the Python
`(bool, message)` tuple. The suspicious-pattern scan on lines 389-392 only
emits a warning and never changes the returned value, so it does not appear
in the result. -/
def validate_code_input (code : Str) : Bool × Str :=
  if code = [] ∨ pyStrip code = [] then
    (false, ("Code cannot be empty").data)
  else if MAX_CODE_LENGTH < code.length then
    (false, ("Code is too long. Maximum 50,000 characters allowed.").data)
  else
    (true, ("Valid").data)

/-- The `suspicious_patterns` list of `validate_code_input` (line 389);
their presence triggers only a UI warning. -/
def suspicious_patterns : List Str :=
  [("eval(").data, ("exec(").data, ("__import__").data,
   ("subprocess").data, ("os.system").data]

/-- The six persona templates of `get_system_prompt` (src/app.py lines
398-405), keyed by mode, as an ordered association list. -/
def base_prompts (lang : Str) : List (Str × Str) :=
  [(("explain").data,
    ("You are an expert ").data ++ lang ++ (" programmer and teacher. Explain code clearly and comprehensively, breaking down complex concepts into understandable parts. Focus on what the code does, how it works, and why it\x27s structured that way. Use markdown formatting for better readability.").data),
   (("refactor").data,
    ("You are a senior ").data ++ lang ++ (" developer specializing in code optimization and best practices. Refactor the provided code to improve readability, performance, and maintainability while preserving functionality. Explain your changes using markdown formatting.").data),
   (("debug").data,
    ("You are an expert ").data ++ lang ++ (" debugger. Analyze the code for potential bugs, errors, or issues. Provide specific suggestions for fixes and improvements. Use markdown formatting.").data),
   (("optimize").data,
    ("You are a ").data ++ lang ++ (" performance optimization expert. Analyze the code for performance improvements, memory usage optimization, and efficiency gains. Provide optimized code with explanations.").data),
   (("security").data,
    ("You are a ").data ++ lang ++ (" security expert. Analyze the code for security vulnerabilities, potential exploits, and security best practices. Provide secure alternatives where needed.").data),
   (("followup").data,
    ("You are a knowledgeable ").data ++ lang ++ (" programming expert. Answer the specific question about the provided code with accuracy and clarity using markdown formatting.").data)]

/-- `get_system_prompt` (src/app.py lines 396-406):
`base_prompts.get(mode, base_prompts['explain'])`. -/
def get_system_prompt (lang mode : Str) : Str :=
  ((base_prompts lang).lookup mode).getD
    (((base_prompts lang).lookup (("explain").data)).getD [])

/-- The fenced code block every user-prompt branch embeds. -/
def fenced_block (lang code : Str) : Str :=
  ("```").data ++ lang ++ ("\n").data ++ code ++ ("\n```").data

/-- The user-prompt if-chain of `process_code` (src/app.py lines 423-434).
The `followup` branch fires only when the question is supplied and truthy
(non-empty); every other mode string falls to the `explain` framing. -/
def build_user_prompt (code mode lang : Str)
    (followup_question : Option Str) : Str :=
  if mode = ("refactor").data then
    ("Refactor this ").data ++ lang ++ (" code for better readability, performance, and best practices:\n\n").data ++ fenced_block lang code
  else if mode = ("debug").data then
    ("Debug this ").data ++ lang ++ (" code and identify potential issues:\n\n").data ++ fenced_block lang code
  else if mode = ("optimize").data then
    ("Optimize this ").data ++ lang ++ (" code for better performance:\n\n").data ++ fenced_block lang code
  else if mode = ("security").data then
    ("Analyze this ").data ++ lang ++ (" code for security vulnerabilities:\n\n").data ++ fenced_block lang code
  else if mode = ("followup").data ∧ followup_question.getD [] ≠ [] then
    ("Here\x27s the ").data ++ lang ++ (" code:\n\n").data ++ fenced_block lang code ++ ("\n\nQuestion: ").data ++ followup_question.getD []
  else
    ("Explain this ").data ++ lang ++ (" code step by step, including what it does, how it works, and any important concepts:\n\n").data ++ fenced_block lang code

/-- The `language_names` dict of `process_code` (src/app.py lines
438-446). -/
def language_names : List (Str × Str) :=
  [(("en").data, ("English").data),
   (("es").data, ("Spanish").data),
   (("hi").data, ("Hindi").data),
   (("fr").data, ("French").data),
   (("de").data, ("German").data),
   (("zh").data, ("Chinese").data),
   (("ja").data, ("Japanese").data)]

/-- The translation step of `process_code` (src/app.py lines 437-448):
`if translate_to and translate_to != "none"` appends one sentence naming
`language_names.get(translate_to, translate_to)`. -/
def add_translation (user_prompt : Str) : Option Str → Str
  | none => user_prompt
  | some t =>
    if t ≠ [] ∧ t ≠ ("none").data then
      user_prompt ++ ("\n\nPlease provide your response in ").data ++
        ((language_names.lookup t).getD t) ++ (".").data
    else
      user_prompt

/-- `full_prompt = f"{system_prompt}\n\n{user_prompt}"` (src/app.py line
451), with the translation directive already appended to the user
prompt. -/
def full_prompt (code mode lang : Str)
    (translate_to followup_question : Option Str) : Str :=
  get_system_prompt lang mode ++ ("\n\n").data ++
    add_translation (build_user_prompt code mode lang followup_question)
      translate_to

/-- The exception handler of `process_code` (src/app.py lines 469-478):
classify the error text by case-insensitive substring inspection, in
source order, into the four user-facing failure messages. -/
def classify_process_error (e : Str) : Str :=
  if containsB (("quota").data) (lowerS e) ||
      containsB (("rate limit").data) (lowerS e) then
    ("❌ Error: API rate limit exceeded. Please try again later.").data
  else if containsB (("api key").data) (lowerS e) ||
      containsB (("authentication").data) (lowerS e) then
    ("❌ Error: API authentication failed. Please check your API key.").data
  else if containsB (("safety").data) (lowerS e) then
    ("❌ Error: Content was blocked by safety filters. Please try with different code.").data
  else
    ("❌ Error: ").data ++ e

/-! ### Helper lemmas about the string model -/

theorem containsB_nil_pat (t : Str) : containsB [] t = true := by
  cases t <;> rfl

theorem isPrefixOfL_self_append (p t : Str) :
    isPrefixOfL p (p ++ t) = true := by
  induction p with
  | nil => rfl
  | cons a as ih => simp [isPrefixOfL, ih]

theorem isPrefixOfL_extend (p s t : Str) (h : isPrefixOfL p s = true) :
    isPrefixOfL p (s ++ t) = true := by
  induction p generalizing s with
  | nil => rfl
  | cons a as ih =>
    cases s with
    | nil => simp [isPrefixOfL] at h
    | cons b bs =>
      simp only [isPrefixOfL, Bool.and_eq_true] at h
      simp only [List.cons_append, isPrefixOfL, Bool.and_eq_true]
      exact ⟨h.1, ih bs h.2⟩

theorem containsB_self_append (p t : Str) : containsB p (p ++ t) = true := by
  cases p with
  | nil => exact containsB_nil_pat t
  | cons a as =>
    simp only [List.cons_append, containsB, Bool.or_eq_true]
    left
    exact isPrefixOfL_self_append (a :: as) t

theorem containsB_append_left (pre p s : Str) (h : containsB p s = true) :
    containsB p (pre ++ s) = true := by
  induction pre with
  | nil => simpa using h
  | cons b bs ih =>
    simp only [List.cons_append, containsB, Bool.or_eq_true]
    right
    exact ih

theorem containsB_append_right (p s t : Str) (h : containsB p s = true) :
    containsB p (s ++ t) = true := by
  induction s with
  | nil =>
    cases p with
    | nil => exact containsB_nil_pat t
    | cons a as => simp [containsB, isPrefixOfL] at h
  | cons b bs ih =>
    simp only [containsB, Bool.or_eq_true] at h
    simp only [List.cons_append, containsB, Bool.or_eq_true]
    rcases h with h | h
    · left; exact isPrefixOfL_extend _ _ _ h
    · right; exact ih h

theorem containsB_sandwich (pre p suf : Str) :
    containsB p (pre ++ p ++ suf) = true := by
  rw [List.append_assoc]
  exact containsB_append_left _ _ _ (containsB_self_append p suf)

theorem containsB_append_self (pre p : Str) :
    containsB p (pre ++ p) = true := by
  have h := containsB_self_append p []
  rw [List.append_nil] at h
  exact containsB_append_left _ _ _ h

theorem pyStrip_eq_nil_iff (s : Str) :
    pyStrip s = [] ↔ ∀ c ∈ s, pySpace c = true := by
  unfold pyStrip
  rw [List.reverse_eq_nil_iff, List.dropWhile_eq_nil_iff]
  constructor
  · intro h c hc
    rcases List.mem_append.mp
        ((List.takeWhile_append_dropWhile pySpace s) ▸ hc) with h1 | h1
    · exact List.mem_takeWhile_imp h1
    · exact h c (List.mem_reverse.mpr h1)
  · intro h c hc
    exact h c ((List.dropWhile_sublist pySpace).mem (List.mem_reverse.mp hc))

theorem lookup_mem {β : Type} (l : List (Str × β)) (k : Str) (v : β)
    (h : l.lookup k = some v) : v ∈ l.map Prod.snd := by
  induction l with
  | nil => simp [List.lookup] at h
  | cons hd t ih =>
    obtain ⟨a, b⟩ := hd
    simp only [List.lookup] at h
    split at h
    · cases h
      exact List.mem_cons_self _ _
    · exact List.mem_cons_of_mem _ (ih h)

/-! ### Claim theorems -/

/-- Claim C5: `validate_code_input` returns the Empty error exactly on
empty or whitespace-only input; otherwise the TooLong error exactly when
the length exceeds 50,000, with the limit value in the message; every other
input — including input containing the suspicious substrings, which only
trigger a warning — is accepted as `(True, "Valid")`. -/
theorem claim_C5_validate_characterization (code : Str) :
    (validate_code_input code = (false, ("Code cannot be empty").data) ↔
      ∀ c ∈ code, pySpace c = true) ∧
    ((∃ c ∈ code, pySpace c = false) →
      (validate_code_input code =
          (false,
            ("Code is too long. Maximum 50,000 characters allowed.").data) ↔
        MAX_CODE_LENGTH < code.length)) ∧
    ((∃ c ∈ code, pySpace c = false) → code.length ≤ MAX_CODE_LENGTH →
      validate_code_input code = (true, ("Valid").data)) ∧
    containsB (("50,000").data)
      (("Code is too long. Maximum 50,000 characters allowed.").data) = true := by
  have hiff : (code = [] ∨ pyStrip code = []) ↔ ∀ c ∈ code, pySpace c = true := by
    constructor
    · rintro (rfl | h)
      · intro c hc
        simp at hc
      · exact (pyStrip_eq_nil_iff code).mp h
    · intro h
      exact Or.inr ((pyStrip_eq_nil_iff code).mpr h)
  by_cases hall : ∀ c ∈ code, pySpace c = true
  · have hv : validate_code_input code = (false, ("Code cannot be empty").data) := by
      unfold validate_code_input
      rw [if_pos (hiff.mpr hall)]
    refine ⟨⟨fun _ => hall, fun _ => hv⟩, ?_, ?_, rfl⟩
    · rintro ⟨c, hc, hcs⟩
      rw [hall c hc] at hcs
      cases hcs
    · rintro ⟨c, hc, hcs⟩
      rw [hall c hc] at hcs
      cases hcs
  · have hcond : ¬ (code = [] ∨ pyStrip code = []) := fun h => hall (hiff.mp h)
    by_cases hlen : MAX_CODE_LENGTH < code.length
    · have hv : validate_code_input code =
          (false,
            ("Code is too long. Maximum 50,000 characters allowed.").data) := by
        unfold validate_code_input
        rw [if_neg hcond, if_pos hlen]
      refine ⟨⟨fun h => ?_, fun h => absurd h hall⟩,
        fun _ => ⟨fun _ => hlen, fun _ => hv⟩, fun _ h => absurd hlen (by omega), rfl⟩
      rw [hv] at h
      exact absurd h (by decide)
    · have hv : validate_code_input code = (true, ("Valid").data) := by
        unfold validate_code_input
        rw [if_neg hcond, if_neg hlen]
      refine ⟨⟨fun h => ?_, fun h => absurd h hall⟩,
        fun _ => ⟨fun h => ?_, fun h => absurd h hlen⟩, fun _ _ => hv, rfl⟩
      · rw [hv] at h
        exact absurd h (by decide)
      · rw [hv] at h
        exact absurd h (by decide)

/-- Claim C5 witness: a non-empty, short input containing a suspicious
substring is accepted. -/
theorem claim_C5_witness :
    validate_code_input (("eval(x)").data) = (true, ("Valid").data) :=
  (claim_C5_validate_characterization (("eval(x)").data)).2.2.1
    (by decide) (by decide)

/-- Claim C9: model-layer errors are classified by case-insensitive
substring inspection of the error text, in source order — quota/rate-limit,
then api key/authentication, then safety, then a generic message embedding
the raw text — and every classification result carries the failure
marker prefix. -/
theorem claim_C9_error_classification (e : Str) :
    ((containsB (("quota").data) (lowerS e) ||
        containsB (("rate limit").data) (lowerS e)) = true →
      classify_process_error e =
        ("❌ Error: API rate limit exceeded. Please try again later.").data) ∧
    ((containsB (("quota").data) (lowerS e) ||
        containsB (("rate limit").data) (lowerS e)) = false →
      (containsB (("api key").data) (lowerS e) ||
        containsB (("authentication").data) (lowerS e)) = true →
      classify_process_error e =
        ("❌ Error: API authentication failed. Please check your API key.").data) ∧
    ((containsB (("quota").data) (lowerS e) ||
        containsB (("rate limit").data) (lowerS e)) = false →
      (containsB (("api key").data) (lowerS e) ||
        containsB (("authentication").data) (lowerS e)) = false →
      containsB (("safety").data) (lowerS e) = true →
      classify_process_error e =
        ("❌ Error: Content was blocked by safety filters. Please try with different code.").data) ∧
    ((containsB (("quota").data) (lowerS e) ||
        containsB (("rate limit").data) (lowerS e)) = false →
      (containsB (("api key").data) (lowerS e) ||
        containsB (("authentication").data) (lowerS e)) = false →
      containsB (("safety").data) (lowerS e) = false →
      classify_process_error e = ("❌ Error: ").data ++ e) ∧
    isPrefixOfL (("❌ Error:").data) (classify_process_error e) = true := by
  refine ⟨fun h1 => ?_, fun h1 h2 => ?_, fun h1 h2 h3 => ?_,
    fun h1 h2 h3 => ?_, ?_⟩
  · simp [classify_process_error, h1]
  · simp [classify_process_error, h1, h2]
  · simp [classify_process_error, h1, h2, h3]
  · simp [classify_process_error, h1, h2, h3]
  · unfold classify_process_error
    split
    · rfl
    · split
      · rfl
      · split
        · rfl
        · exact isPrefixOfL_extend _ _ _ (by rfl)

/-- Claim C9 witness: an authentication-flavored error text is classified
into the authentication-failure message. -/
theorem claim_C9_witness :
    classify_process_error (("API key invalid").data) =
      ("❌ Error: API authentication failed. Please check your API key.").data :=
  (claim_C9_error_classification (("API key invalid").data)).2.1
    (by decide) (by decide)

/-- Claim C6: for every mode, code, language tag, translation target and
follow-up question, the built prompt contains the original code verbatim
inside a fenced block labeled with the language tag. -/
theorem claim_C6_round_trip (code mode lang : Str)
    (translate_to followup_question : Option Str) :
    containsB (fenced_block lang code)
      (full_prompt code mode lang translate_to followup_question) = true := by
  have hu : containsB (fenced_block lang code)
      (build_user_prompt code mode lang followup_question) = true := by
    unfold build_user_prompt
    split
    · exact containsB_append_self _ _
    · split
      · exact containsB_append_self _ _
      · split
        · exact containsB_append_self _ _
        · split
          · exact containsB_append_self _ _
          · split
            · exact containsB_append_right _ _ _
                (containsB_append_right _ _ _ (containsB_append_self _ _))
            · exact containsB_append_self _ _
  unfold full_prompt
  apply containsB_append_left
  cases translate_to with
  | none => exact hu
  | some t =>
    simp only [add_translation]
    by_cases hc : t ≠ [] ∧ t ≠ ("none").data
    · rw [if_pos hc]
      exact containsB_append_right _ _ _
        (containsB_append_right _ _ _ (containsB_append_right _ _ _ hu))
    · rw [if_neg hc]
      exact hu

set_option maxHeartbeats 10000000 in
set_option maxRecDepth 100000 in
/-- Claim C7 counterexample: the empty string is a non-`"none"` translation
target, yet no translation sentence is appended — the built prompt equals
the prompt built with no target at all, and carries no translation
directive. This refutes the claim that every non-`"none"` value gets
exactly one echoed sentence. -/
theorem claim_C7_counterexample :
    ([] : Str) ≠ ("none").data ∧
    full_prompt (("x").data) (("explain").data) (("python").data)
        (some []) none =
      full_prompt (("x").data) (("explain").data) (("python").data)
        none none ∧
    containsB (("Please provide your response in").data)
      (full_prompt (("x").data) (("explain").data) (("python").data)
        (some []) none) = false := by
  refine ⟨by decide, rfl, ?_⟩
  decide

/-- Claim C7 as amended: a `None`, `"none"`, or empty translation target
appends nothing; every non-empty target other than `"none"` appends exactly
one sentence naming the table-mapped language name, falling back to echoing
the raw code when the target is not one of the seven table keys. -/
theorem claim_C7_translation_directive (u : Str) :
    add_translation u none = u ∧
    add_translation u (some (("none").data)) = u ∧
    add_translation u (some []) = u ∧
    (∀ t : Str, t ≠ [] → t ≠ ("none").data →
      add_translation u (some t) =
        u ++ ("\n\nPlease provide your response in ").data ++
          ((language_names.lookup t).getD t) ++ (".").data) := by
  refine ⟨rfl, ?_, ?_, fun t h1 h2 => ?_⟩
  · simp only [add_translation]
    rw [if_neg]
    rintro ⟨-, h⟩
    exact h rfl
  · simp only [add_translation]
    rw [if_neg]
    rintro ⟨h, -⟩
    exact h rfl
  · simp only [add_translation]
    rw [if_pos ⟨h1, h2⟩]

/-- Claim C7 witness: an unrecognized non-empty code gets exactly one
sentence echoing the raw code value. -/
theorem claim_C7_witness :
    add_translation (("U").data) (some (("xx").data)) =
      ("U").data ++ ("\n\nPlease provide your response in ").data ++
        ("xx").data ++ (".").data :=
  (claim_C7_translation_directive (("U").data)).2.2.2
    (("xx").data) (by decide) (by decide)

/-- The six recognized analysis modes. -/
def recognized_modes : List Str :=
  [("explain").data, ("refactor").data, ("debug").data,
   ("optimize").data, ("security").data, ("followup").data]

/-- Claim C8: the prompt builder never fails — an unrecognized mode gets
the explain persona and the explain task framing, and `followup` mode with
an absent or empty question falls back to the explain framing without
fabricating a question. -/
theorem claim_C8_mode_default :
    (∀ (code lang mode : Str) (fq : Option Str), mode ∉ recognized_modes →
      get_system_prompt lang mode = get_system_prompt lang (("explain").data) ∧
      build_user_prompt code mode lang fq =
        build_user_prompt code (("explain").data) lang fq) ∧
    (∀ code lang : Str,
      build_user_prompt code (("followup").data) lang none =
        build_user_prompt code (("explain").data) lang none) ∧
    (∀ code lang : Str,
      build_user_prompt code (("followup").data) lang (some []) =
        build_user_prompt code (("explain").data) lang (some [])) := by
  refine ⟨fun code lang mode fq hmode => ?_, fun code lang => rfl,
    fun code lang => rfl⟩
  simp only [recognized_modes, List.mem_cons, List.not_mem_nil, or_false,
    not_or] at hmode
  obtain ⟨h1, h2, h3, h4, h5, h6⟩ := hmode
  constructor
  · have hnone : (base_prompts lang).lookup mode = none := by
      simp [base_prompts, List.lookup, beq_eq_false_iff_ne.mpr h1,
        beq_eq_false_iff_ne.mpr h2, beq_eq_false_iff_ne.mpr h3,
        beq_eq_false_iff_ne.mpr h4, beq_eq_false_iff_ne.mpr h5,
        beq_eq_false_iff_ne.mpr h6]
    unfold get_system_prompt
    rw [hnone]
    rfl
  · unfold build_user_prompt
    rw [if_neg h2, if_neg h3, if_neg h4, if_neg h5,
      if_neg (fun hc => h6 hc.1)]
    rfl

/-- Claim C8 witness: the unrecognized mode string `"banana"` gets the
explain persona and framing. -/
theorem claim_C8_witness :
    get_system_prompt (("python").data) (("banana").data) =
      get_system_prompt (("python").data) (("explain").data) ∧
    build_user_prompt (("x").data) (("banana").data) (("python").data) none =
      build_user_prompt (("x").data) (("explain").data) (("python").data)
        none :=
  claim_C8_mode_default.1 (("x").data) (("python").data) (("banana").data)
    none (by decide)

/-! ### Detection claims -/

/-- The closed 7-element set of supported language tags. -/
def supported_tags : List Str :=
  [("python").data, ("javascript").data, ("cpp").data, ("java").data,
   ("html").data, ("css").data, ("php").data]

/-- The maximum per-language match count of the content scan
(`max(pattern_counts.values())`, src/app.py line 372). -/
def max_pattern_count (code : Str) : Nat :=
  ((pattern_counts (pyStrip (lowerS code))).map (fun lc => lc.2)).foldl max 0

/-- Match count of a single language in the content scan, read off the
pattern table. -/
def lang_match_count (lang code : Str) : Nat :=
  countMatches ((langPatternTable.lookup lang).getD [])
    (pyStrip (lowerS code))

/-- The fixed iteration order of the `pattern_counts` dict (Python
insertion order, src/app.py lines 361-369). -/
def tie_order : List Str :=
  [("javascript").data, ("python").data, ("java").data, ("cpp").data,
   ("html").data, ("css").data, ("php").data]

/-- Spec-side reformulation of the scan's selection rule: the first
language in iteration order whose count equals the maximum. -/
def first_max_lang (code : Str) : Option Str :=
  tie_order.find? (fun l => lang_match_count l code == max_pattern_count code)

theorem find?_pair_map (l : List Str) (f : Str → Nat) (m : Nat) :
    ((l.map (fun x => (x, f x))).find? (fun lc => lc.2 == m)).map
        (fun lc => lc.1) =
      l.find? (fun x => f x == m) := by
  induction l with
  | nil => rfl
  | cons a t ih =>
    cases hfa : (f a == m) with
    | true =>
      rw [List.map_cons,
        List.find?_cons_of_pos (p := fun lc : Str × Nat => lc.2 == m) _ hfa,
        List.find?_cons_of_pos (p := fun x : Str => f x == m) _ hfa]
      rfl
    | false =>
      rw [List.map_cons,
        List.find?_cons_of_neg (p := fun lc : Str × Nat => lc.2 == m) _
          (by simp [hfa]),
        List.find?_cons_of_neg (p := fun x : Str => f x == m) _
          (by simp [hfa])]
      exact ih

/-- Claim C1: a filename whose lowercase extension (the text after the last
dot) is an extension-table key forces the table-mapped tag, regardless of
the code content and of the external guesser; in particular `"app.tsx"`
always yields `javascript`. -/
theorem claim_C1_filename_extension_dominates :
    (∀ (g : Str → Option LexerInfo) (code f tag : Str),
      ext_map.lookup (file_ext f) = some tag →
      detect_language g code (some f) = tag) ∧
    (∀ (g : Str → Option LexerInfo) (code : Str),
      detect_language g code (some (("app.tsx").data)) =
        ("javascript").data) := by
  have main : ∀ (g : Str → Option LexerInfo) (code f tag : Str),
      ext_map.lookup (file_ext f) = some tag →
      detect_language g code (some f) = tag := by
    intro g code f tag h
    have hf : f ≠ [] := by
      rintro rfl
      rw [show ext_map.lookup (file_ext []) = none from rfl] at h
      cases h
    unfold detect_language
    simp only [detect_from_filename]
    rw [if_neg hf, h]
  exact ⟨main, fun g code => main g code _ _ rfl⟩

set_option maxHeartbeats 2000000 in
/-- Claim C1 witness: `detect(code, "app.tsx")` returns `javascript` even
when the guesser fails and the code looks like nothing. -/
theorem claim_C1_witness :
    detect_language (fun _ => none) (("x = 1").data)
      (some (("app.tsx").data)) = ("javascript").data :=
  claim_C1_filename_extension_dominates.1 (fun _ => none) (("x = 1").data)
    (("app.tsx").data) (("javascript").data) rfl

theorem lang_from_lexer_name_mem (lexname lang : Str)
    (h : lang_from_lexer_name lexname = some lang) :
    lang ∈ language_map.map Prod.snd := by
  unfold lang_from_lexer_name at h
  cases hfind : language_map.find? (fun kv => containsB kv.1 (lowerS lexname)) with
  | none => rw [hfind] at h; cases h
  | some kv =>
    rw [hfind] at h
    simp only [Option.map_some'] at h
    cases h
    exact List.mem_map_of_mem Prod.snd (List.mem_of_find?_eq_some hfind)

theorem lang_from_aliases_mem (aliases : List Str) (lang : Str)
    (h : lang_from_aliases aliases = some lang) :
    lang ∈ language_map.map Prod.snd := by
  obtain ⟨a, -, ha⟩ := List.exists_of_findSome?_eq_some h
  exact lookup_mem _ _ _ ha

theorem analyze_code_content_mem (code lang : Str)
    (h : analyze_code_content code = some lang) :
    lang ∈ langPatternTable.map Prod.fst := by
  have heq : analyze_code_content code =
      if 2 ≤ max_pattern_count code then
        ((pattern_counts (pyStrip (lowerS code))).find?
          (fun lc => lc.2 == max_pattern_count code)).map (fun lc => lc.1)
      else none := rfl
  rw [heq] at h
  split at h
  · cases hfind : (pattern_counts (pyStrip (lowerS code))).find?
        (fun lc => lc.2 == max_pattern_count code) with
    | none => rw [hfind] at h; cases h
    | some lc =>
      rw [hfind] at h
      simp only [Option.map_some'] at h
      cases h
      have hmem := List.mem_of_find?_eq_some hfind
      unfold pattern_counts at hmem
      obtain ⟨lp, hlp, hlp2⟩ := List.mem_map.mp hmem
      rw [← hlp2]
      exact List.mem_map_of_mem Prod.fst hlp
  · cases h

set_option maxHeartbeats 4000000 in
/-- Claim C2: `detect_language` is total and always lands in the closed
7-element tag set; when no detection step yields a result it returns the
`python` default, on both no-result paths — the guesser raising
`ClassNotFound` (src/app.py lines 296-304) and the guesser succeeding with
a lexer that neither the name-containment scan nor the alias lookup maps
(src/app.py lines 292-294) — each with the content scan yielding nothing;
in particular `detect("", no filename)` with a failing guesser returns
`python`. -/
theorem claim_C2_detect_total_default :
    (∀ (g : Str → Option LexerInfo) (code : Str) (filename : Option Str),
      detect_language g code filename ∈ supported_tags) ∧
    (∀ (g : Str → Option LexerInfo) (code : Str) (filename : Option Str),
      detect_from_filename filename = none → g code = none →
      analyze_code_content code = none →
      detect_language g code filename = ("python").data) ∧
    (∀ (g : Str → Option LexerInfo) (code : Str) (filename : Option Str)
        (lexer : LexerInfo),
      detect_from_filename filename = none → g code = some lexer →
      lang_from_lexer_name lexer.name = none →
      lang_from_aliases lexer.aliases = none →
      analyze_code_content code = none →
      detect_language g code filename = ("python").data) ∧
    (∀ g : Str → Option LexerInfo, g [] = none →
      detect_language g [] none = ("python").data) := by
  have hext : ∀ v ∈ ext_map.map Prod.snd, v ∈ supported_tags := by decide
  have hmap : ∀ v ∈ language_map.map Prod.snd, v ∈ supported_tags := by decide
  have htab : ∀ v ∈ langPatternTable.map Prod.fst, v ∈ supported_tags := by
    decide
  have hfall : ∀ code : Str, analyze_code_content code = none →
      detect_fallback code = ("python").data := by
    intro code h
    unfold detect_fallback
    rw [h]
  have hdefault : ∀ (g : Str → Option LexerInfo) (code : Str)
      (filename : Option Str),
      detect_from_filename filename = none → g code = none →
      analyze_code_content code = none →
      detect_language g code filename = ("python").data := by
    intro g code filename h1 h2 h3
    unfold detect_language
    rw [h1, h2]
    show detect_fallback code = ("python").data
    exact hfall code h3
  have hdefault2 : ∀ (g : Str → Option LexerInfo) (code : Str)
      (filename : Option Str) (lexer : LexerInfo),
      detect_from_filename filename = none → g code = some lexer →
      lang_from_lexer_name lexer.name = none →
      lang_from_aliases lexer.aliases = none →
      analyze_code_content code = none →
      detect_language g code filename = ("python").data := by
    intro g code filename lexer h1 h2 h3 h4 h5
    unfold detect_language
    rw [h1, h2]
    show detect_from_lexer lexer code = ("python").data
    unfold detect_from_lexer
    rw [h3, h4]
    exact hfall code h5
  have hmem : ∀ (g : Str → Option LexerInfo) (code : Str)
      (filename : Option Str),
      detect_language g code filename ∈ supported_tags := by
    intro g code filename
    unfold detect_language
    cases hdf : detect_from_filename filename with
    | some lang =>
      cases filename with
      | none => cases hdf
      | some f =>
        simp only [detect_from_filename] at hdf
        split at hdf
        · cases hdf
        · exact hext lang (lookup_mem _ _ _ hdf)
    | none =>
      cases hg : g code with
      | none =>
        show detect_fallback code ∈ supported_tags
        unfold detect_fallback
        cases ha : analyze_code_content code with
        | some lang =>
          exact htab lang (analyze_code_content_mem code lang ha)
        | none =>
          show (("python").data) ∈ supported_tags
          decide
      | some lexer =>
        show detect_from_lexer lexer code ∈ supported_tags
        unfold detect_from_lexer
        cases hn : lang_from_lexer_name lexer.name with
        | some lang =>
          exact hmap lang (lang_from_lexer_name_mem _ lang hn)
        | none =>
          cases hal : lang_from_aliases lexer.aliases with
          | some lang =>
            exact hmap lang (lang_from_aliases_mem _ lang hal)
          | none =>
            show detect_fallback code ∈ supported_tags
            unfold detect_fallback
            cases ha : analyze_code_content code with
            | some lang =>
              exact htab lang (analyze_code_content_mem code lang ha)
            | none =>
              show (("python").data) ∈ supported_tags
              decide
  exact ⟨hmem, hdefault, hdefault2,
    fun g hg => hdefault g [] none rfl hg rfl⟩

set_option maxHeartbeats 10000000 in
/-- Claim C2 witness: with a failing guesser the empty input defaults to
`python`; and with a guesser that returns an unmapped Ruby lexer on a
patternless snippet, the unmapped-lexer path also defaults to `python`. -/
theorem claim_C2_witness :
    detect_language (fun _ => none) [] none = ("python").data ∧
    detect_language
        (fun _ => some ⟨("Ruby").data, [("rb").data, ("ruby").data]⟩)
        (("puts 1").data) none = ("python").data :=
  ⟨(claim_C2_detect_total_default.2.2.2 (fun _ => none)) rfl,
    claim_C2_detect_total_default.2.2.1
      (fun _ => some ⟨("Ruby").data, [("rb").data, ("ruby").data]⟩)
      (("puts 1").data) none ⟨("Ruby").data, [("rb").data, ("ruby").data]⟩
      rfl rfl rfl rfl rfl⟩

/-- Claim C3: a code sample with at least 2 distinct Python-pattern
substrings and 0 substrings from every other language's list is classified
`python` by the content scan; and whenever the maximum per-language match
count is below 2 the scan yields no result. -/
theorem claim_C3_python_scan :
    (∀ code : Str,
      2 ≤ countMatches python_patterns (pyStrip (lowerS code)) →
      countMatches js_patterns (pyStrip (lowerS code)) = 0 →
      countMatches java_patterns (pyStrip (lowerS code)) = 0 →
      countMatches cpp_patterns (pyStrip (lowerS code)) = 0 →
      countMatches html_patterns (pyStrip (lowerS code)) = 0 →
      countMatches css_patterns (pyStrip (lowerS code)) = 0 →
      countMatches php_patterns (pyStrip (lowerS code)) = 0 →
      analyze_code_content code = some (("python").data)) ∧
    (∀ code : Str, max_pattern_count code < 2 →
      analyze_code_content code = none) := by
  constructor
  · intro code hpy hjs hja hcpp hhtml hcss hphp
    have heq : analyze_code_content code =
        if 2 ≤ max_pattern_count code then
          ((pattern_counts (pyStrip (lowerS code))).find?
            (fun lc => lc.2 == max_pattern_count code)).map (fun lc => lc.1)
        else none := rfl
    have hmax : max_pattern_count code =
        countMatches python_patterns (pyStrip (lowerS code)) := by
      unfold max_pattern_count pattern_counts langPatternTable
      simp only [List.map_cons, List.map_nil]
      rw [hjs, hja, hcpp, hhtml, hcss, hphp]
      simp [Nat.zero_max, Nat.max_zero, Nat.max_self]
    have h0 : ((0 : Nat) ==
        countMatches python_patterns (pyStrip (lowerS code))) = false :=
      beq_eq_false_iff_ne.mpr (by omega)
    rw [heq, hmax, if_pos hpy]
    unfold pattern_counts langPatternTable
    simp only [List.map_cons, List.map_nil]
    rw [hjs, hja, hcpp, hhtml, hcss, hphp]
    simp [List.find?, h0]
  · intro code h
    have heq : analyze_code_content code =
        if 2 ≤ max_pattern_count code then
          ((pattern_counts (pyStrip (lowerS code))).find?
            (fun lc => lc.2 == max_pattern_count code)).map (fun lc => lc.1)
        else none := rfl
    rw [heq, if_neg (by omega)]

set_option maxHeartbeats 10000000 in
/-- Claim C3 witness: a two-Python-pattern sample is classified `python`;
a patternless sample yields no scan result. -/
theorem claim_C3_witness :
    analyze_code_content (("def a\nprint(b)").data) =
      some (("python").data) ∧
    analyze_code_content (("hello").data) = none :=
  ⟨claim_C3_python_scan.1 (("def a\nprint(b)").data) (by decide) (by decide)
      (by decide) (by decide) (by decide) (by decide) (by decide),
    claim_C3_python_scan.2 (("hello").data) (by decide)⟩

/-- Claim C4: when the maximum match count reaches the threshold, the scan
returns the first language with that count in the fixed iteration order
javascript, python, java, cpp, html, css, php — so tie resolution is
deterministic and javascript wins any tie involving it. -/
theorem claim_C4_tie_resolution :
    (∀ code : Str, 2 ≤ max_pattern_count code →
      analyze_code_content code = first_max_lang code) ∧
    (∀ code : Str, 2 ≤ max_pattern_count code →
      lang_match_count (("javascript").data) code = max_pattern_count code →
      analyze_code_content code = some (("javascript").data)) := by
  have main : ∀ code : Str, 2 ≤ max_pattern_count code →
      analyze_code_content code = first_max_lang code := by
    intro code h
    have heq : analyze_code_content code =
        if 2 ≤ max_pattern_count code then
          ((pattern_counts (pyStrip (lowerS code))).find?
            (fun lc => lc.2 == max_pattern_count code)).map (fun lc => lc.1)
        else none := rfl
    have hpc : pattern_counts (pyStrip (lowerS code)) =
        tie_order.map (fun l => (l, lang_match_count l code)) := rfl
    rw [heq, if_pos h, hpc,
      find?_pair_map tie_order (fun l => lang_match_count l code)
        (max_pattern_count code)]
    rfl
  refine ⟨main, fun code h hjs => ?_⟩
  rw [main code h]
  unfold first_max_lang tie_order
  rw [List.find?_cons_of_pos
    (p := fun l => lang_match_count l code == max_pattern_count code) _
    (by simp [hjs])]

set_option maxHeartbeats 10000000 in
/-- Claim C4 witness: a sample where javascript and python tie at the
maximum count 2 is resolved to `javascript`, the first language in
iteration order. -/
theorem claim_C4_witness :
    analyze_code_content (("import a\ndef b\nconst c").data) =
      some (("javascript").data) :=
  claim_C4_tie_resolution.2 (("import a\ndef b\nconst c").data)
    (by decide) (by decide)

/-- Claim C10: the bare brace characters each count as a CSS pattern match,
so code containing both braces and nothing from any other language's list
(and no other CSS pattern) reaches the 2-match threshold and is classified
`css`. -/
theorem claim_C10_css_braces (code : Str)
    (h1 : containsB (("\x7b").data) (pyStrip (lowerS code)) = true)
    (h2 : containsB (("\x7d").data) (pyStrip (lowerS code)) = true)
    (hcss : ∀ p ∈ css_patterns.drop 2,
      containsB p (pyStrip (lowerS code)) = false)
    (hjs : countMatches js_patterns (pyStrip (lowerS code)) = 0)
    (hpy : countMatches python_patterns (pyStrip (lowerS code)) = 0)
    (hja : countMatches java_patterns (pyStrip (lowerS code)) = 0)
    (hcpp : countMatches cpp_patterns (pyStrip (lowerS code)) = 0)
    (hhtml : countMatches html_patterns (pyStrip (lowerS code)) = 0)
    (hphp : countMatches php_patterns (pyStrip (lowerS code)) = 0) :
    analyze_code_content code = some (("css").data) := by
  have hrest : List.countP (fun p => containsB p (pyStrip (lowerS code)))
      (css_patterns.drop 2) = 0 :=
    List.countP_eq_zero.mpr (fun p hp => by rw [hcss p hp]; simp)
  have hcsscount : countMatches css_patterns (pyStrip (lowerS code)) = 2 := by
    show List.countP (fun p => containsB p (pyStrip (lowerS code)))
      css_patterns = 2
    rw [show css_patterns = (("\x7b").data) :: (("\x7d").data) ::
      css_patterns.drop 2 from rfl]
    rw [List.countP_cons, List.countP_cons, hrest]
    simp [h1, h2]
  have heq : analyze_code_content code =
      if 2 ≤ max_pattern_count code then
        ((pattern_counts (pyStrip (lowerS code))).find?
          (fun lc => lc.2 == max_pattern_count code)).map (fun lc => lc.1)
      else none := rfl
  have hmax : max_pattern_count code = 2 := by
    unfold max_pattern_count pattern_counts langPatternTable
    simp only [List.map_cons, List.map_nil]
    rw [hjs, hpy, hja, hcpp, hhtml, hphp, hcsscount]
    simp [Nat.zero_max, Nat.max_zero, Nat.max_self]
  rw [heq, hmax, if_pos (le_refl 2)]
  unfold pattern_counts langPatternTable
  simp only [List.map_cons, List.map_nil]
  rw [hjs, hpy, hja, hcpp, hhtml, hphp, hcsscount]
  simp [List.find?]

set_option maxHeartbeats 10000000 in
/-- Claim C10 witness: the input consisting of an opening and a closing
brace is classified `css` by the scan. -/
theorem claim_C10_witness :
    analyze_code_content (("\x7b \x7d").data) = some (("css").data) :=
  claim_C10_css_braces (("\x7b \x7d").data) (by decide) (by decide)
    (by decide) (by decide) (by decide) (by decide) (by decide) (by decide)
    (by decide)
